import Mathlib

/-!
Verification of the libzbc internal header (`src/lib/zbc.h`) and of the
device-abstraction contracts documented in the design specification.

The pure macros of the header (`zbc_ro_mask`, `zbc_dev_is_zoned`,
`zbc_test_mode`, `zbc_dev_sect_laligned`, `zbc_dev_sect_paligned`, the
log-level gate of `zbc_print_level`) are embedded directly as Lean
functions.  The dispatch paths of `zbc.c` and the backend implementations
are not part of the source tree; where a property depends on them, a
definition explicitly modelled from the specification stands in, and each
such definition carries a doc comment saying so.
-/

/-- Zone-model classification of a device
(spec: "not zoned / host-aware / host-managed";
`zbd_info.zbd_model` in `src/lib/zbc.h:136`). -/
inductive ZbcDevModel
  | not_zoned
  | host_aware
  | host_managed
deriving DecidableEq, Repr

/-- The macro `zbc_dev_is_zoned` from `src/lib/zbc.h:137-138`:
the device model is host-managed or host-aware. -/
def zbc_dev_is_zoned (m : ZbcDevModel) : Bool :=
  m == ZbcDevModel.host_managed || m == ZbcDevModel.host_aware

/-- Coarse error classes of the structured-error taxonomy (spec section 7). -/
inductive ErrClass
  | success
  | invalid_argument
  | unsupported
  | not_zoned_err
  | device_error
  | io_error
deriving DecidableEq, Repr

/-- The macro `zbc_ro_mask` from `src/lib/zbc.h:183`: `(ro) & 0x3f`. -/
def zbc_ro_mask (ro : Nat) : Nat := ro &&& 0x3f

/-- Modelled from the spec: the report-zones entry point (in `zbc.c`, not
part of the source tree) applies `zbc_ro_mask` to the reporting filter and
forwards the masked value to the bound backend; it performs no rejection
of out-of-range filter values (spec section 4.4: "The filter value is
masked to 6 bits before forwarding").  The result is the filter value the
backend receives. -/
def zbc_report_zones_dispatch (ro : Nat) : Except ErrClass Nat :=
  Except.ok (zbc_ro_mask ro)

/-- The constant `ZBC_DEVTEST` from `src/lib/zbc.h:146`. -/
def ZBC_DEVTEST : Nat := 0x80000000

/-- The macro `zbc_test_mode` from `src/lib/zbc.h:151-155`: when the build defines
`HAVE_DEVTEST` it tests `zbd_flags & ZBC_DEVTEST`; otherwise it is the
constant `false`.  The build-time switch is the first argument. -/
def zbc_test_mode (have_devtest : Bool) (zbd_flags : Nat) : Bool :=
  if have_devtest then zbd_flags &&& ZBC_DEVTEST != 0 else false

/-- The macro `zbc_dev_sect_laligned` from `src/lib/zbc.h:194-195`:
`((sect << 9) & (lblock_size - 1)) == 0`, with the C shift wrapping
modulo 2^64 (`sect` is a `uint64_t`). -/
def zbc_dev_sect_laligned (zbd_lblock_size sect : Nat) : Bool :=
  ((sect <<< 9) % 2 ^ 64) &&& (zbd_lblock_size - 1) == 0

/-- The macro `zbc_dev_sect_paligned` from `src/lib/zbc.h:200-201`:
`((sect << 9) & (pblock_size - 1)) == 0`, with the C shift wrapping
modulo 2^64. -/
def zbc_dev_sect_paligned (zbd_pblock_size sect : Nat) : Bool :=
  ((sect <<< 9) % 2 ^ 64) &&& (zbd_pblock_size - 1) == 0

/-- Modelled from the spec: the argument validation performed by the
read/write paths of `zbc.c` (not part of the source tree) before the
backend is invoked (spec section 4.2): a request whose starting sector is
not aligned to the logical block size fails with an invalid-argument
error unless the handle is in test mode, in which case validation is
bypassed.  `Except.ok ()` means the request is forwarded to the backend. -/
def zbc_pread_check (have_devtest : Bool) (zbd_flags zbd_lblock_size sect : Nat) :
    Except ErrClass Unit :=
  if !zbc_test_mode have_devtest zbd_flags &&
     !zbc_dev_sect_laligned zbd_lblock_size sect then
    Except.error ErrClass.invalid_argument
  else
    Except.ok ()

/-- Modelled from the spec: step (1) of the zone-operation dispatcher
validation order (spec section 4.5, `zbc.c` not part of the source tree):
reject with a not-zoned error when `zbc_dev_is_zoned` is false, before any
backend is invoked. -/
def zbc_zone_op_check_zoned (m : ZbcDevModel) : Except ErrClass Unit :=
  if zbc_dev_is_zoned m then Except.ok () else Except.error ErrClass.not_zoned_err

/-- The four backend variants declared in `src/lib/zbc.h:160-175`
(`zbc_block_ops`, `zbc_ata_ops`, `zbc_scsi_ops`, `zbc_fake_ops`). -/
inductive ZbcBackend
  | block
  | ata
  | scsi
  | fake
deriving DecidableEq, Repr

/-- Zone configuration state kept by the file-emulation backend
(spec section 6: zone size, conventional region size, per-zone write
pointers). -/
structure EmuState where
  conv_size : Nat
  zone_size : Nat
  wps : List (Nat × Nat)
deriving DecidableEq, Repr

/-- Modelled from the spec: which backends implement the optional
`zbd_set_zones` entry of `struct zbc_ops` (`src/lib/zbc.h:78-79`, "For
emulated drives only"): only the file-emulation backend. -/
def backend_has_set_zones : ZbcBackend → Bool
  | ZbcBackend.fake => true
  | _ => false

/-- Modelled from the spec: which backends implement the optional
`zbd_set_wp` entry of `struct zbc_ops` (`src/lib/zbc.h:85-86`, "For
emulated drives only"): only the file-emulation backend. -/
def backend_has_set_wp : ZbcBackend → Bool
  | ZbcBackend.fake => true
  | _ => false

/-- Modelled from the spec: the `reconfigure_zones` (`set_zones`) entry
point.  On a backend without the optional op it fails with an
unsupported error and leaves the device state unchanged; on the
emulation backend it succeeds and installs the new configuration. -/
def zbc_set_zones (b : ZbcBackend) (st : EmuState) (conv zsize : Nat) :
    ErrClass × EmuState :=
  if backend_has_set_zones b then
    (ErrClass.success, { st with conv_size := conv, zone_size := zsize, wps := [] })
  else
    (ErrClass.unsupported, st)

/-- Modelled from the spec: the `set_write_pointer` (`set_wp`) entry
point.  On a backend without the optional op it fails with an
unsupported error and leaves the device state unchanged; on the
emulation backend it succeeds and records the new write pointer. -/
def zbc_set_wp (b : ZbcBackend) (st : EmuState) (zstart new_wp : Nat) :
    ErrClass × EmuState :=
  if backend_has_set_wp b then
    (ErrClass.success, { st with wps := (zstart, new_wp) :: st.wps })
  else
    (ErrClass.unsupported, st)

/-- Log levels from `src/lib/zbc.h:214-221`. -/
inductive LogLevel
  | none
  | warning
  | error
  | info
  | debug
deriving DecidableEq, Repr

/-- The numeric codes of the log-level enumeration in
`src/lib/zbc.h:214-221` (`ZBC_LOG_NONE = 0`, then increasing). -/
def zbc_log_code : LogLevel → Nat
  | LogLevel.none => 0
  | LogLevel.warning => 1
  | LogLevel.error => 2
  | LogLevel.info => 3
  | LogLevel.debug => 4

/-- The macro `zbc_print_level` from `src/lib/zbc.h:237-242`: a message tagged with
level `l` is printed exactly when `l <= zbc_log_level`, the process-wide
setting. -/
def zbc_print_level_emits (l : LogLevel) (zbc_log_level : Nat) : Bool :=
  Nat.ble (zbc_log_code l) zbc_log_level

/-- The reporting-option mask is reduction modulo 2^6: shared arithmetic
core of the filter-masking claims. -/
theorem zbc_ro_mask_eq_mod (ro : Nat) : zbc_ro_mask ro = ro % 2 ^ 6 := by
  simpa using Nat.and_pow_two_sub_one_eq_mod ro 6

/-- C1: the report-zones path masks the reporting filter to its low 6
bits before forwarding: `zbc_ro_mask` is reduction modulo 2^6, masking
0x7F yields 0x3F, and the dispatched filter for a request with 0x7F is
identical to the one for a request with 0x3F. -/
theorem C1_ro_mask_low6 (ro : Nat) :
    zbc_ro_mask ro = ro % 2 ^ 6 ∧
    zbc_ro_mask 0x7f = 0x3f ∧
    zbc_report_zones_dispatch 0x7f = zbc_report_zones_dispatch 0x3f :=
  ⟨zbc_ro_mask_eq_mod ro, rfl, rfl⟩

/-- C10: the reporting-option mask is idempotent, bounded by 0x3F, and
the identity on values already in the 6-bit range. -/
theorem C10_ro_mask_algebra (ro : Nat) :
    zbc_ro_mask (zbc_ro_mask ro) = zbc_ro_mask ro ∧
    zbc_ro_mask ro ≤ 0x3f ∧
    (ro ≤ 0x3f → zbc_ro_mask ro = ro) := by
  have hmod : ∀ x : Nat, zbc_ro_mask x = x % 64 := fun x => zbc_ro_mask_eq_mod x
  refine ⟨?_, ?_, ?_⟩
  · simp [hmod]
  · rw [hmod]
    exact Nat.le_of_lt_succ (Nat.mod_lt ro (by omega))
  · intro h
    rw [hmod]
    exact Nat.mod_eq_of_lt (by omega)

/-- C10 witness: the algebraic properties of `zbc_ro_mask` evaluated at
the concrete filter value 5. -/
theorem C10_ro_mask_algebra_witness :
    zbc_ro_mask (zbc_ro_mask 5) = zbc_ro_mask 5 ∧
    zbc_ro_mask 5 ≤ 0x3f ∧ zbc_ro_mask 5 = 5 :=
  ⟨(C10_ro_mask_algebra 5).1, (C10_ro_mask_algebra 5).2.1,
   (C10_ro_mask_algebra 5).2.2 (by decide)⟩

/-- C3: the device-is-zoned predicate holds exactly for the host-managed
and host-aware classifications, and on every other classification the
zone-operation dispatcher rejects with a not-zoned error before any
backend is invoked. -/
theorem C3_is_zoned_iff (m : ZbcDevModel) :
    (zbc_dev_is_zoned m = true ↔
      (m = ZbcDevModel.host_managed ∨ m = ZbcDevModel.host_aware)) ∧
    (zbc_dev_is_zoned m = false →
      zbc_zone_op_check_zoned m = Except.error ErrClass.not_zoned_err) := by
  cases m <;> simp [zbc_dev_is_zoned, zbc_zone_op_check_zoned]

/-- C3 witness: a not-zoned device is not classified as zoned and its
zone operations are rejected with the not-zoned error. -/
theorem C3_is_zoned_iff_witness :
    zbc_dev_is_zoned ZbcDevModel.not_zoned = false ∧
    zbc_zone_op_check_zoned ZbcDevModel.not_zoned =
      Except.error ErrClass.not_zoned_err :=
  ⟨by decide, (C3_is_zoned_iff ZbcDevModel.not_zoned).2 (by decide)⟩

/-- C4: with `HAVE_DEVTEST` undefined the test-mode predicate is false
for every flag word, so the alignment-bypass branch can never be taken
(the read-path check outcome depends only on the alignment test); with
`HAVE_DEVTEST` defined it is true exactly when bit 31 (`ZBC_DEVTEST` =
0x80000000) is set in the handle flags. -/
theorem C4_test_mode (zbd_flags zbd_lblock_size sect : Nat) :
    zbc_test_mode false zbd_flags = false ∧
    (zbc_test_mode true zbd_flags = true ↔ Nat.testBit zbd_flags 31 = true) ∧
    zbc_pread_check false zbd_flags zbd_lblock_size sect =
      (if zbc_dev_sect_laligned zbd_lblock_size sect then Except.ok ()
       else Except.error ErrClass.invalid_argument) := by
  refine ⟨rfl, ?_, ?_⟩
  · have h : zbd_flags &&& ZBC_DEVTEST = (Nat.testBit zbd_flags 31).toNat * 2 ^ 31 := by
      have : ZBC_DEVTEST = 2 ^ 31 := by decide
      rw [this]
      exact Nat.and_two_pow zbd_flags 31
    simp only [zbc_test_mode, if_pos rfl, h]
    cases Nat.testBit zbd_flags 31 <;> simp
  · simp only [zbc_pread_check, zbc_test_mode]
    cases hal : zbc_dev_sect_laligned zbd_lblock_size sect <;> simp [hal]

/-- C4 witness: the test-mode predicate evaluated on a flag word with
bit 31 set: false without the build opt-in, true with it, and the read
path outcome governed by alignment alone when the opt-in is absent. -/
theorem C4_test_mode_witness :
    zbc_test_mode false 0x80000000 = false ∧
    (zbc_test_mode true 0x80000000 = true ↔
      Nat.testBit 0x80000000 31 = true) ∧
    zbc_pread_check false 0x80000000 4096 1 =
      (if zbc_dev_sect_laligned 4096 1 then Except.ok ()
       else Except.error ErrClass.invalid_argument) :=
  C4_test_mode 0x80000000 4096 1

/-- C7: a diagnostic message tagged with level `l` is emitted exactly
when `l <= zbc_log_level`; when the process-wide setting is
`ZBC_LOG_NONE` (0), no warning, error, info, or debug message is
emitted. -/
theorem C7_log_gate (l : LogLevel) (lvl : Nat) :
    (zbc_print_level_emits l lvl = true ↔ zbc_log_code l ≤ lvl) ∧
    ((l = LogLevel.warning ∨ l = LogLevel.error ∨ l = LogLevel.info ∨
      l = LogLevel.debug) → zbc_print_level_emits l 0 = false) := by
  constructor
  · exact iff_of_eq Nat.ble_eq
  · rintro (rfl | rfl | rfl | rfl) <;> decide

/-- C7 witness: a warning is emitted at level 1 and suppressed at
level 0. -/
theorem C7_log_gate_witness :
    (zbc_print_level_emits LogLevel.warning 1 = true ↔
      zbc_log_code LogLevel.warning ≤ 1) ∧
    zbc_print_level_emits LogLevel.warning 0 = false :=
  ⟨(C7_log_gate LogLevel.warning 1).1,
   (C7_log_gate LogLevel.warning 0).2 (Or.inl rfl)⟩

/-- Bit-mask alignment tests against a power of two are divisibility
tests on the unwrapped byte offset: shared arithmetic core of the
alignment claims. -/
theorem zbc_align_mask_eq (k sect : Nat) (hk : k ≤ 64) :
    (((sect <<< 9) % 2 ^ 64) &&& (2 ^ k - 1) == 0) = true ↔
      2 ^ k ∣ sect * 512 := by
  rw [Nat.and_pow_two_sub_one_eq_mod, beq_iff_eq,
      Nat.mod_mod_of_dvd _ (Nat.pow_dvd_pow 2 hk), Nat.shiftLeft_eq]
  rw [show (2 : Nat) ^ 9 = 512 from rfl]
  exact Nat.dvd_iff_mod_eq_zero.symm

/-- C5: for a power-of-two logical block size, the logical-alignment
check accepts a sector offset exactly when the byte offset `sect * 512`
is a multiple of the logical block size (the sector unit is fixed at 512
bytes), and a request failing the check while test mode is off fails
with an invalid-argument error instead of reaching the backend. -/
theorem C5_laligned (have_devtest : Bool) (zbd_flags k zbd_lblock_size sect : Nat)
    (hp : zbd_lblock_size = 2 ^ k) (hk : k ≤ 64)
    (ht : zbc_test_mode have_devtest zbd_flags = false) :
    (zbc_dev_sect_laligned zbd_lblock_size sect = true ↔
      zbd_lblock_size ∣ sect * 512) ∧
    (zbc_dev_sect_laligned zbd_lblock_size sect = false →
      zbc_pread_check have_devtest zbd_flags zbd_lblock_size sect =
        Except.error ErrClass.invalid_argument) := by
  subst hp
  constructor
  · exact zbc_align_mask_eq k sect hk
  · intro hal
    simp [zbc_pread_check, ht, hal]

/-- C5 witness: with a 4096-byte logical block (2^12) and test mode off,
sector 1 (byte offset 512) is misaligned and the read path rejects it
with invalid-argument; sector alignment coincides with divisibility of
the byte offset. -/
theorem C5_laligned_witness :
    (4096 : Nat) = 2 ^ 12 ∧ (12 : Nat) ≤ 64 ∧
    zbc_test_mode false 0 = false ∧
    ((zbc_dev_sect_laligned 4096 1 = true ↔ (4096 : Nat) ∣ 1 * 512) ∧
     (zbc_dev_sect_laligned 4096 1 = false →
       zbc_pread_check false 0 4096 1 = Except.error ErrClass.invalid_argument)) :=
  ⟨by decide, by decide, rfl, C5_laligned false 0 12 4096 1 (by decide) (by decide) rfl⟩

/-- C6 counterexample: the reporting filter 0x7F lies outside the 6-bit
range, yet the report-zones path does not reject it: the request is
dispatched successfully with the filter silently transformed to 0x3F. -/
theorem C6_counterexample :
    zbc_report_zones_dispatch 0x7f = Except.ok 0x3f ∧
    zbc_ro_mask 0x7f ≠ 0x7f :=
  ⟨rfl, by decide⟩

/-- C6 amended: a reporting-filter value outside the 6-bit range is not
rejected before dispatch; it is masked to its low 6 bits and the masked
value, always at most 0x3F, is forwarded to the backend. -/
theorem C6_amended (ro : Nat) (h : 0x3f < ro) :
    zbc_report_zones_dispatch ro = Except.ok (ro % 2 ^ 6) ∧
    zbc_ro_mask ro ≤ 0x3f ∧ zbc_ro_mask ro ≠ ro := by
  have hmod := zbc_ro_mask_eq_mod ro
  have hlt : ro % 2 ^ 6 < 2 ^ 6 := Nat.mod_lt ro (by omega)
  refine ⟨?_, ?_, ?_⟩ <;> simp [zbc_report_zones_dispatch, hmod] <;> omega

/-- C6 amended witness: the out-of-range filter 0x40 is masked to 0 and
forwarded, not rejected. -/
theorem C6_amended_witness :
    (0x3f : Nat) < 0x40 ∧
    (zbc_report_zones_dispatch 0x40 = Except.ok (0x40 % 2 ^ 6) ∧
     zbc_ro_mask 0x40 ≤ 0x3f ∧ zbc_ro_mask 0x40 ≠ 0x40) :=
  ⟨by decide, C6_amended 0x40 (by decide)⟩

/-- C8: on every backend other than the file emulation, the optional
`set_zones` and `set_wp` operations fail with an unsupported error and
leave the device state unchanged; on the emulation backend both
succeed. -/
theorem C8_optional_ops (b : ZbcBackend) (st : EmuState)
    (conv zsize zstart new_wp : Nat) (hb : b ≠ ZbcBackend.fake) :
    zbc_set_zones b st conv zsize = (ErrClass.unsupported, st) ∧
    zbc_set_wp b st zstart new_wp = (ErrClass.unsupported, st) ∧
    (zbc_set_zones ZbcBackend.fake st conv zsize).1 = ErrClass.success ∧
    (zbc_set_wp ZbcBackend.fake st zstart new_wp).1 = ErrClass.success := by
  cases b <;> simp_all [zbc_set_zones, zbc_set_wp,
    backend_has_set_zones, backend_has_set_wp]

/-- C8 witness: on the SCSI pass-through backend both optional
operations report unsupported and preserve the state, while the
emulation backend accepts them. -/
theorem C8_optional_ops_witness :
    ZbcBackend.scsi ≠ ZbcBackend.fake ∧
    (zbc_set_zones ZbcBackend.scsi ⟨0, 0, []⟩ 16 64 =
       (ErrClass.unsupported, (⟨0, 0, []⟩ : EmuState)) ∧
     zbc_set_wp ZbcBackend.scsi ⟨0, 0, []⟩ 64 70 =
       (ErrClass.unsupported, (⟨0, 0, []⟩ : EmuState)) ∧
     (zbc_set_zones ZbcBackend.fake ⟨0, 0, []⟩ 16 64).1 = ErrClass.success ∧
     (zbc_set_wp ZbcBackend.fake ⟨0, 0, []⟩ 64 70).1 = ErrClass.success) :=
  ⟨by decide, C8_optional_ops ZbcBackend.scsi ⟨0, 0, []⟩ 16 64 64 70 (by decide)⟩

/-- C9: under the open-time geometry invariant (logical and physical
block sizes powers of two with physical at least logical), every sector
offset passing the physical-block alignment check also passes the
logical-block alignment check. -/
theorem C9_paligned_implies_laligned
    (l p zbd_lblock_size zbd_pblock_size sect : Nat)
    (hl : zbd_lblock_size = 2 ^ l) (hp : zbd_pblock_size = 2 ^ p)
    (hle : zbd_lblock_size ≤ zbd_pblock_size) (hp64 : p ≤ 64)
    (hpa : zbc_dev_sect_paligned zbd_pblock_size sect = true) :
    zbc_dev_sect_laligned zbd_lblock_size sect = true := by
  subst hl hp
  have hlp : l ≤ p := (Nat.pow_le_pow_iff_right (by omega)).1 hle
  have hpd : 2 ^ p ∣ sect * 512 :=
    (zbc_align_mask_eq p sect hp64).1 hpa
  exact (zbc_align_mask_eq l sect (hlp.trans hp64)).2
    (dvd_trans (Nat.pow_dvd_pow 2 hlp) hpd)

/-- C9 witness: with 512-byte logical and 4096-byte physical blocks,
sector 8 is physically aligned and hence logically aligned. -/
theorem C9_paligned_implies_laligned_witness :
    (512 : Nat) = 2 ^ 9 ∧ (4096 : Nat) = 2 ^ 12 ∧ (512 : Nat) ≤ 4096 ∧
    (12 : Nat) ≤ 64 ∧ zbc_dev_sect_paligned 4096 8 = true ∧
    zbc_dev_sect_laligned 512 8 = true :=
  ⟨by decide, by decide, by decide, by decide, by decide,
   C9_paligned_implies_laligned 9 12 512 4096 8 (by decide) (by decide)
     (by decide) (by decide) (by decide)⟩

/-- Zone conditions of the zone descriptor (spec section 3: "empty,
implicit-open, explicit-open, closed, full, read-only, offline,
inactive"). -/
inductive ZoneCond
  | empty
  | imp_open
  | exp_open
  | closed
  | full
  | read_only
  | offline
  | inactive
deriving DecidableEq, Repr

/-- A sequential-write-required zone descriptor: start LBA, length in
logical blocks, write-pointer LBA, condition (spec section 3). -/
structure SeqZone where
  zstart : Nat
  zlen : Nat
  wp : Nat
  cond : ZoneCond
deriving DecidableEq, Repr

/-- Conditions from which a write (and an explicit open, and a finish)
is permitted in the normal lifecycle (spec section 4.3). -/
def zbc_cond_writable (c : ZoneCond) : Prop :=
  c = ZoneCond.empty ∨ c = ZoneCond.closed ∨
  c = ZoneCond.imp_open ∨ c = ZoneCond.exp_open

/-- Normal-lifecycle conditions (spec section 4.3): the writable ones
plus full.  Read-only and offline are reachable from any of these. -/
def zbc_cond_lifecycle (c : ZoneCond) : Prop :=
  zbc_cond_writable c ∨ c = ZoneCond.full

/-- Condition after a write that does not fill the zone (spec section
4.3: Empty/Closed go to Implicit-Open on first write; an
explicitly-open zone stays explicitly open). -/
def advCond : ZoneCond → ZoneCond
  | ZoneCond.exp_open => ZoneCond.exp_open
  | _ => ZoneCond.imp_open

/-- Modelled from the spec: the zone condition state machine of section
4.3 for a sequential-write-required zone (the backend code realising it
is not part of the source tree).  Transitions: a write of `n > 0` blocks
at the write pointer advances it and opens or fills the zone; an
explicit Open makes the condition explicit-open without moving the write
pointer; Close parks an open zone; Finish fills the zone; Reset-Write-
Pointer empties it; the device may move any lifecycle zone to the
absorbing read-only or offline conditions. -/
inductive ZStep : SeqZone → SeqZone → Prop
  | write (z : SeqZone) (n : Nat) (hc : zbc_cond_writable z.cond)
      (hn : 0 < n) (hb : z.wp + n ≤ z.zstart + z.zlen) :
      ZStep z { z with wp := z.wp + n,
                       cond := if z.wp + n = z.zstart + z.zlen then
                                 ZoneCond.full
                               else advCond z.cond }
  | open_exp (z : SeqZone) (hc : zbc_cond_writable z.cond) :
      ZStep z { z with cond := ZoneCond.exp_open }
  | close (z : SeqZone)
      (hc : z.cond = ZoneCond.imp_open ∨ z.cond = ZoneCond.exp_open) :
      ZStep z { z with cond := ZoneCond.closed }
  | finish (z : SeqZone) (hc : zbc_cond_writable z.cond) :
      ZStep z { z with wp := z.zstart + z.zlen, cond := ZoneCond.full }
  | reset (z : SeqZone) (hc : zbc_cond_lifecycle z.cond) :
      ZStep z { z with wp := z.zstart, cond := ZoneCond.empty }
  | dev_read_only (z : SeqZone) (hc : zbc_cond_lifecycle z.cond) :
      ZStep z { z with cond := ZoneCond.read_only }
  | dev_offline (z : SeqZone) (hc : zbc_cond_lifecycle z.cond) :
      ZStep z { z with cond := ZoneCond.offline }

/-- Reachability under the zone state machine. -/
def ZReach : SeqZone → SeqZone → Prop := Relation.ReflTransGen ZStep

/-- A freshly reported zone in its initial state: empty, write pointer
at the zone start, positive length. -/
def ZInit (z : SeqZone) : Prop :=
  z.cond = ZoneCond.empty ∧ z.wp = z.zstart ∧ 0 < z.zlen

/-- The write-pointer consistency invariant the state machine actually
maintains. -/
def zbc_wp_inv (z : SeqZone) : Prop :=
  0 < z.zlen ∧ z.zstart ≤ z.wp ∧ z.wp ≤ z.zstart + z.zlen ∧
  (z.cond = ZoneCond.empty → z.wp = z.zstart) ∧
  (z.cond = ZoneCond.full → z.wp = z.zstart + z.zlen) ∧
  (z.cond = ZoneCond.imp_open →
    z.zstart < z.wp ∧ z.wp < z.zstart + z.zlen) ∧
  (z.cond = ZoneCond.exp_open → z.wp < z.zstart + z.zlen) ∧
  (z.cond = ZoneCond.closed → z.wp < z.zstart + z.zlen)

/-- The invariant is preserved by every transition of the zone state
machine. -/
theorem zbc_wp_inv_step {z z' : SeqZone} (hs : ZStep z z')
    (hi : zbc_wp_inv z) : zbc_wp_inv z' := by
  obtain ⟨h1, h2, h3, he, hf, him, hex, hcl⟩ := hi
  cases hs with
  | write n hcw hn hb =>
    rcases hcw with hc | hc | hc | hc <;>
      by_cases heq : z.wp + n = z.zstart + z.zlen <;>
        simp_all [zbc_wp_inv, advCond] <;> omega
  | open_exp hcw =>
    rcases hcw with hc | hc | hc | hc <;> simp_all [zbc_wp_inv]
  | close hcw =>
    rcases hcw with hc | hc <;> simp_all [zbc_wp_inv]
  | finish hcw =>
    rcases hcw with hc | hc | hc | hc <;> simp_all [zbc_wp_inv]
  | reset hcw =>
    simp_all [zbc_wp_inv]
  | dev_read_only hcw =>
    simp_all [zbc_wp_inv]
  | dev_offline hcw =>
    simp_all [zbc_wp_inv]

/-- Every zone reachable from a valid initial zone satisfies the
write-pointer invariant. -/
theorem zbc_wp_inv_reach {z0 z : SeqZone} (h0 : ZInit z0)
    (hr : ZReach z0 z) : zbc_wp_inv z := by
  obtain ⟨hc, hwp, hlen⟩ := h0
  induction hr with
  | refl => simp_all [zbc_wp_inv]
  | tail hab hbc ih => exact zbc_wp_inv_step hbc ih

/-- The write-pointer/condition consistency property exactly as the
claim states it. -/
def zbc_claimC2 (z : SeqZone) : Prop :=
  (z.cond = ZoneCond.empty ↔ z.wp = z.zstart) ∧
  (z.cond = ZoneCond.full ↔ z.wp = z.zstart + z.zlen) ∧
  (z.cond ≠ ZoneCond.empty → z.cond ≠ ZoneCond.full →
    z.zstart < z.wp ∧ z.wp < z.zstart + z.zlen)

/-- C2 counterexample: starting from a valid empty zone (start 0,
length 8, write pointer 0), a single explicit Open reaches a zone whose
condition is Explicit-Open while its write pointer still equals the zone
start — so the claimed equivalence "Empty iff write pointer equals
start" and the claimed strict bound for the other conditions both
fail. -/
theorem C2_counterexample :
    ZInit ⟨0, 8, 0, ZoneCond.empty⟩ ∧
    ZReach ⟨0, 8, 0, ZoneCond.empty⟩ ⟨0, 8, 0, ZoneCond.exp_open⟩ ∧
    ¬ zbc_claimC2 ⟨0, 8, 0, ZoneCond.exp_open⟩ := by
  refine ⟨⟨rfl, rfl, by decide⟩, ?_, ?_⟩
  · exact Relation.ReflTransGen.single
      (ZStep.open_exp ⟨0, 8, 0, ZoneCond.empty⟩ (Or.inl rfl))
  · unfold zbc_claimC2
    decide

/-- C2 amended: for every zone reachable from a valid initial state on a
sequential-write-required device, Empty implies the write pointer equals
the zone start, Full implies it equals start plus length,
Implicit-Open implies it lies strictly between them, Explicit-Open and
Closed imply it lies in [start, start+length), and Read-Only and
Offline imply it lies in [start, start+length]; the converses of the
Empty and Full implications do not hold (an explicitly opened unwritten
zone has its write pointer at the zone start). -/
theorem C2_amended {z0 z : SeqZone} (h0 : ZInit z0) (hr : ZReach z0 z) :
    (z.cond = ZoneCond.empty → z.wp = z.zstart) ∧
    (z.cond = ZoneCond.full → z.wp = z.zstart + z.zlen) ∧
    (z.cond = ZoneCond.imp_open →
      z.zstart < z.wp ∧ z.wp < z.zstart + z.zlen) ∧
    ((z.cond = ZoneCond.exp_open ∨ z.cond = ZoneCond.closed) →
      z.zstart ≤ z.wp ∧ z.wp < z.zstart + z.zlen) ∧
    ((z.cond = ZoneCond.read_only ∨ z.cond = ZoneCond.offline) →
      z.zstart ≤ z.wp ∧ z.wp ≤ z.zstart + z.zlen) := by
  obtain ⟨h1, h2, h3, he, hf, him, hex, hcl⟩ := zbc_wp_inv_reach h0 hr
  refine ⟨he, hf, him, ?_, ?_⟩
  · rintro (hc | hc)
    · exact ⟨h2, hex hc⟩
    · exact ⟨h2, hcl hc⟩
  · rintro (hc | hc) <;> exact ⟨h2, h3⟩

/-- C2 amended witness: the amended consistency bounds evaluated on the
zone reached in one write of 3 blocks from a valid initial zone of
length 8 at start 0 (condition Implicit-Open, write pointer 3). -/
theorem C2_amended_witness :
    ((⟨0, 8, 3, ZoneCond.imp_open⟩ : SeqZone).cond = ZoneCond.empty →
      (3 : Nat) = 0) ∧
    ((⟨0, 8, 3, ZoneCond.imp_open⟩ : SeqZone).cond = ZoneCond.full →
      (3 : Nat) = 0 + 8) ∧
    ((⟨0, 8, 3, ZoneCond.imp_open⟩ : SeqZone).cond = ZoneCond.imp_open →
      (0 : Nat) < 3 ∧ (3 : Nat) < 0 + 8) ∧
    (((⟨0, 8, 3, ZoneCond.imp_open⟩ : SeqZone).cond = ZoneCond.exp_open ∨
      (⟨0, 8, 3, ZoneCond.imp_open⟩ : SeqZone).cond = ZoneCond.closed) →
      (0 : Nat) ≤ 3 ∧ (3 : Nat) < 0 + 8) ∧
    (((⟨0, 8, 3, ZoneCond.imp_open⟩ : SeqZone).cond = ZoneCond.read_only ∨
      (⟨0, 8, 3, ZoneCond.imp_open⟩ : SeqZone).cond = ZoneCond.offline) →
      (0 : Nat) ≤ 3 ∧ (3 : Nat) ≤ 0 + 8) :=
  @C2_amended ⟨0, 8, 0, ZoneCond.empty⟩ ⟨0, 8, 3, ZoneCond.imp_open⟩ ⟨rfl, rfl, by decide⟩
    (Relation.ReflTransGen.single
      (ZStep.write ⟨0, 8, 0, ZoneCond.empty⟩ 3 (Or.inl rfl) (by decide)
        (by decide)))
